import Mathlib

/-!
Shallow embedding of the Retirement Simulator projection engine
(`src/Retirement.py`).

The per-month loop of `simulate_retirement` (lines 41-95) is exact
arithmetic on the monthly rates `r_m` and `inf_m`, which the source
computes once before the loop (lines 35-36) via `annual_to_monthly`.
We embed the loop over `ℚ`, taking `r_m` and `inf_m` as fields of the
parameter record, and embed `annual_to_monthly` (line 9-11) separately
over `ℝ`, since `(1 + x) ^ (1/12)` is irrational in general.
The source's floats are idealized as exact rationals.
-/

namespace Retirement

/-- The input record of `simulate_retirement` (lines 14-29), with the
two derived monthly rates `r_m = annual_to_monthly (yield_annual - fee_annual)`
and `inf_m = annual_to_monthly inflation_annual` (lines 35-36) carried as
fields, since the loop body reads only these. -/
structure Params where
  opening_balance : ℚ
  years_till_retirement : ℕ
  years_in_retirement : ℕ
  monthly_income : ℚ
  monthly_contribution : ℚ
  monthly_withdraw_pre : ℚ
  monthly_withdraw_post : ℚ
  inflate_withdrawals_post : Bool
  one_time_contribution : ℚ
  one_time_contribution_month : ℕ
  one_time_withdrawal : ℚ
  one_time_withdrawal_month : ℕ
  r_m : ℚ
  inf_m : ℚ
deriving DecidableEq

/-- Embeds `months_pre = years_till_retirement * 12` (line 31). -/
def months_pre (p : Params) : ℕ := p.years_till_retirement * 12

/-- Embeds `months_post = years_in_retirement * 12` (line 32). -/
def months_post (p : Params) : ℕ := p.years_in_retirement * 12

/-- Embeds `total_months = months_pre + months_post` (line 33). -/
def total_months (p : Params) : ℕ := months_pre p + months_post p

/-- One row of the produced DataFrame (lines 77-95). -/
structure Row where
  Month : ℕ
  Year : ℕ
  Phase : String
  Balance_Nominal : ℚ
  Balance_Real_Today : ℚ
  Return_Monthly : ℚ
  Inflation_Monthly : ℚ
  Income : ℚ
  Contribution : ℚ
  Withdrawal : ℚ
  OneTime_Contribution : ℚ
  OneTime_Withdrawal : ℚ
  Net_Cashflow : ℚ
  Balance_Before : ℚ
  Went_Negative : Bool
deriving DecidableEq

/-- Embeds `income = monthly_income if m <= months_pre else 0.0` (line 49). -/
def income (p : Params) (m : ℕ) : ℚ :=
  if m ≤ months_pre p then p.monthly_income else 0

/-- Embeds `contrib = monthly_contribution if m <= months_pre else 0.0` (line 50). -/
def contrib (p : Params) (m : ℕ) : ℚ :=
  if m ≤ months_pre p then p.monthly_contribution else 0

/-- Lines 52-57: `withdraw` is the pre value in pre-retirement, else the
post value, overwritten by the inflation-scaled post value
`monthly_withdraw_post * (1 + inf_m) ^ (months_into_ret - 1)` when the
phase is Retirement and `inflate_withdrawals_post` is set
(`months_into_ret = m - months_pre`). -/
def withdraw (p : Params) (m : ℕ) : ℚ :=
  if months_pre p < m ∧ p.inflate_withdrawals_post = true then
    p.monthly_withdraw_post * (1 + p.inf_m) ^ (m - months_pre p - 1)
  else if m ≤ months_pre p then p.monthly_withdraw_pre else p.monthly_withdraw_post

/-- Embeds line 60: `ot_contrib = one_time_contribution if m == one_time_contribution_month else 0.0`. -/
def ot_contrib (p : Params) (m : ℕ) : ℚ :=
  if m = p.one_time_contribution_month then p.one_time_contribution else 0

/-- Embeds line 61: `ot_withdraw = one_time_withdrawal if m == one_time_withdrawal_month else 0.0`. -/
def ot_withdraw (p : Params) (m : ℕ) : ℚ :=
  if m = p.one_time_withdrawal_month then p.one_time_withdrawal else 0

/-- Embeds line 46: `infl_index = (1.0 + inf_m) ** (m - 1)`. -/
def infl_index (p : Params) (m : ℕ) : ℚ := (1 + p.inf_m) ^ (m - 1)

/-- Lines 65-70: the balance after growth then net cashflow, before the
floor at zero: `bal * (1 + r_m) + net_in - net_out`. -/
def preFloor (p : Params) (bal : ℚ) (m : ℕ) : ℚ :=
  bal * (1 + p.r_m) + (income p m + contrib p m + ot_contrib p m)
    - (withdraw p m + ot_withdraw p m)

/-- Lines 72-75: cap the balance at zero when it went below zero. -/
def postFloor (p : Params) (bal : ℚ) (m : ℕ) : ℚ :=
  if preFloor p bal m < 0 then 0 else preFloor p bal m

/-- The row appended for month `m` when the running balance at the start
of the month is `bal` (lines 42-95). -/
def mkRow (p : Params) (bal : ℚ) (m : ℕ) : Row :=
  { Month := m
    Year := (m - 1) / 12 + 1
    Phase := if m ≤ months_pre p then "Pre-retirement" else "Retirement"
    Balance_Nominal := postFloor p bal m
    Balance_Real_Today := postFloor p bal m / infl_index p m
    Return_Monthly := p.r_m
    Inflation_Monthly := p.inf_m
    Income := income p m
    Contribution := contrib p m
    Withdrawal := withdraw p m
    OneTime_Contribution := ot_contrib p m
    OneTime_Withdrawal := ot_withdraw p m
    Net_Cashflow := (income p m + contrib p m + ot_contrib p m)
      - (withdraw p m + ot_withdraw p m)
    Balance_Before := bal
    Went_Negative := decide (preFloor p bal m < 0) }

/-- The loop of lines 41-95, by remaining-month count: `simFrom p k m bal`
produces the rows for months `m, m+1, ..., m+k-1` starting from balance
`bal`, threading the floored balance into the next month. -/
def simFrom (p : Params) : ℕ → ℕ → ℚ → List Row
  | 0, _, _ => []
  | k + 1, m, bal => mkRow p bal m :: simFrom p k (m + 1) (postFloor p bal m)

/-- Embeds `simulate_retirement` (lines 14-97): run the loop for months
`1..total_months` from the opening balance. -/
def simulate_retirement (p : Params) : List Row :=
  simFrom p (total_months p) 1 p.opening_balance

/-- The reported running balance after `m` months: `opening_balance`
for `m = 0`, and the floored month-`m` balance thereafter (the value of
the source's `bal` variable after `m` loop iterations). -/
def balAt (p : Params) : ℕ → ℚ
  | 0 => p.opening_balance
  | m + 1 => postFloor p (balAt p m) (m + 1)

/-- Lines 169-171: the first row with `Went_Negative` set, as a month
number (`failure_rows["Month"].iloc[0]`), `none` when no row is flagged. -/
def failure_month (df : List Row) : Option ℕ :=
  match df.filter (fun r => r.Went_Negative) with
  | [] => none
  | r :: _ => some r.Month

/-- Line 166: the last row's nominal balance. -/
def end_nominal (df : List Row) : Option ℚ :=
  df.getLast?.map fun r => r.Balance_Nominal

/-- Embeds `annual_to_monthly` (lines 9-11): effective monthly rate from a
nominal annual rate. -/
noncomputable def annual_to_monthly (rate_annual : ℝ) : ℝ :=
  (1 + rate_annual) ^ ((1 : ℝ) / 12) - 1

/-- Line 35: `r_m = annual_to_monthly(yield_annual - fee_annual)`. -/
noncomputable def r_m_of (yield_annual fee_annual : ℝ) : ℝ :=
  annual_to_monthly (yield_annual - fee_annual)

/-- Line 36: `inf_m = annual_to_monthly(inflation_annual)`. -/
noncomputable def inf_m_of (inflation_annual : ℝ) : ℝ :=
  annual_to_monthly inflation_annual

/-- A sample parameter record (two-year horizon, zero monthly rates so
concrete rows stay small) used to instantiate theorems with hypotheses. -/
def exampleParams : Params :=
  { opening_balance := 1000
    years_till_retirement := 1
    years_in_retirement := 1
    monthly_income := 10
    monthly_contribution := 20
    monthly_withdraw_pre := 5
    monthly_withdraw_post := 30
    inflate_withdrawals_post := true
    one_time_contribution := 100
    one_time_contribution_month := 3
    one_time_withdrawal := 50
    one_time_withdrawal_month := 20
    r_m := 0
    inf_m := 0 }

/-- The depletion scenario of the spec: zero opening balance, no inflows,
a 100-per-month withdrawal during accumulation. -/
def depletionParams : Params :=
  { opening_balance := 0
    years_till_retirement := 1
    years_in_retirement := 1
    monthly_income := 0
    monthly_contribution := 0
    monthly_withdraw_pre := 100
    monthly_withdraw_post := 30
    inflate_withdrawals_post := true
    one_time_contribution := 0
    one_time_contribution_month := 1
    one_time_withdrawal := 0
    one_time_withdrawal_month := 1
    r_m := 0
    inf_m := 0 }

/-- Zero rates, no withdrawals, no one-time events, no income: only the
periodic contribution moves the balance. -/
def contributionOnlyParams : Params :=
  { opening_balance := 3
    years_till_retirement := 1
    years_in_retirement := 1
    monthly_income := 0
    monthly_contribution := 20
    monthly_withdraw_pre := 0
    monthly_withdraw_post := 0
    inflate_withdrawals_post := false
    one_time_contribution := 0
    one_time_contribution_month := 1
    one_time_withdrawal := 0
    one_time_withdrawal_month := 1
    r_m := 0
    inf_m := 0 }

/-- Zero rates and a nonzero monthly income, all other flows zero. -/
def incomeOnlyParams : Params :=
  { opening_balance := 0
    years_till_retirement := 1
    years_in_retirement := 0
    monthly_income := 100
    monthly_contribution := 0
    monthly_withdraw_pre := 0
    monthly_withdraw_post := 0
    inflate_withdrawals_post := false
    one_time_contribution := 0
    one_time_contribution_month := 1
    one_time_withdrawal := 0
    one_time_withdrawal_month := 1
    r_m := 0
    inf_m := 0 }

/-- A parameter record that is invalid per the spec: negative opening
balance and a one-time target period outside the horizon. -/
def invalidParams : Params :=
  { opening_balance := -5
    years_till_retirement := 1
    years_in_retirement := 0
    monthly_income := 0
    monthly_contribution := 0
    monthly_withdraw_pre := 0
    monthly_withdraw_post := 0
    inflate_withdrawals_post := false
    one_time_contribution := 10
    one_time_contribution_month := 1000
    one_time_withdrawal := 0
    one_time_withdrawal_month := 1
    r_m := 0
    inf_m := 0 }

/-- Immediate retirement with a withdrawal exceeding the opening balance:
month 1 has pre-floor balance `50 - 100 = -50`. -/
def overdrawParams : Params :=
  { opening_balance := 50
    years_till_retirement := 0
    years_in_retirement := 1
    monthly_income := 0
    monthly_contribution := 0
    monthly_withdraw_pre := 0
    monthly_withdraw_post := 100
    inflate_withdrawals_post := false
    one_time_contribution := 0
    one_time_contribution_month := 1
    one_time_withdrawal := 0
    one_time_withdrawal_month := 1
    r_m := 0
    inf_m := 0 }

/-- The first row produced for `overdrawParams`. -/
def overdrawRow : Row := mkRow overdrawParams overdrawParams.opening_balance 1

/-- The first row produced for `exampleParams`. -/
def exampleRow : Row := mkRow exampleParams exampleParams.opening_balance 1

/-- Unfolding lemma for `balAt` by one month. -/
lemma balAt_succ (p : Params) (m : ℕ) :
    balAt p (m + 1) = postFloor p (balAt p m) (m + 1) := rfl

/-- Starting the loop at month `m + 1` from the running balance after `m`
months produces, for each `i < k`, the row for month `m + i + 1` built from
the running balance after `m + i` months. -/
lemma simFrom_eq (p : Params) :
    ∀ k m : ℕ, simFrom p k (m + 1) (balAt p m)
      = (List.range k).map fun i => mkRow p (balAt p (m + i)) (m + i + 1) := by
  intro k
  induction k with
  | zero => intro m; rfl
  | succ k ih =>
    intro m
    have h1 : simFrom p (k + 1) (m + 1) (balAt p m)
        = mkRow p (balAt p m) (m + 1) :: simFrom p k (m + 1 + 1) (balAt p (m + 1)) := rfl
    rw [h1, ih (m + 1), List.range_succ_eq_map, List.map_cons, List.map_map]
    congr 1
    apply List.map_congr_left
    intro i hi
    have e1 : m + 1 + i = m + (i + 1) := by omega
    simp only [Function.comp_apply, Nat.succ_eq_add_one, e1]

/-- The produced sequence is the month-indexed map of `mkRow` over the
running balances. -/
lemma simulate_eq (p : Params) :
    simulate_retirement p
      = (List.range (total_months p)).map fun i => mkRow p (balAt p i) (i + 1) := by
  have h := simFrom_eq p (total_months p) 0
  simpa [simulate_retirement, balAt] using h

lemma simulate_length (p : Params) :
    (simulate_retirement p).length = total_months p := by
  rw [simulate_eq]; simp

lemma simulate_getElem? (p : Params) (i : ℕ) (hi : i < total_months p) :
    (simulate_retirement p)[i]? = some (mkRow p (balAt p i) (i + 1)) := by
  rw [simulate_eq, List.getElem?_map, List.getElem?_range hi]; rfl

lemma simulate_row (p : Params) {i : ℕ} {row : Row}
    (h : (simulate_retirement p)[i]? = some row) :
    i < total_months p ∧ row = mkRow p (balAt p i) (i + 1) := by
  have hlen : i < (simulate_retirement p).length :=
    (List.getElem?_eq_some.mp h).1
  rw [simulate_length] at hlen
  have h2 := simulate_getElem? p i hlen
  exact ⟨hlen, Option.some_inj.mp (h.symm.trans h2)⟩

lemma mem_simulate (p : Params) {row : Row} (h : row ∈ simulate_retirement p) :
    ∃ i < total_months p, row = mkRow p (balAt p i) (i + 1) := by
  rw [simulate_eq] at h
  rcases List.mem_map.mp h with ⟨i, hi, hrow⟩
  exact ⟨i, List.mem_range.mp hi, hrow.symm⟩

/-- On a list whose months are pairwise monotone, a successful scan
returns the month of a flagged row that is minimal among flagged rows. -/
lemma failure_month_eq_some :
    ∀ {l : List Row}, l.Pairwise (fun a b => a.Month ≤ b.Month) →
      ∀ {k : ℕ}, failure_month l = some k →
        (∃ row ∈ l, row.Month = k ∧ row.Went_Negative = true) ∧
        ∀ row ∈ l, row.Went_Negative = true → k ≤ row.Month := by
  intro l
  induction l with
  | nil => intro _ k h; simp [failure_month] at h
  | cons a t ih =>
    intro hpair k h
    rcases List.pairwise_cons.mp hpair with ⟨hhead, htail⟩
    by_cases ha : a.Went_Negative = true
    · have hfm : failure_month (a :: t) = some a.Month := by
        unfold failure_month
        rw [List.filter_cons_of_pos ha]
      rw [hfm] at h
      obtain rfl : a.Month = k := Option.some_inj.mp h
      refine ⟨⟨a, by simp, rfl, ha⟩, ?_⟩
      intro row hrow _
      rcases List.mem_cons.mp hrow with rfl | hmem
      · exact le_refl _
      · exact hhead row hmem
    · have hfm : failure_month (a :: t) = failure_month t := by
        unfold failure_month
        rw [List.filter_cons_of_neg (by simpa using ha)]
      rw [hfm] at h
      obtain ⟨⟨row, hmem, hm, hneg⟩, hmin⟩ := ih htail h
      refine ⟨⟨row, List.mem_cons_of_mem a hmem, hm, hneg⟩, ?_⟩
      intro s hs hsneg
      rcases List.mem_cons.mp hs with rfl | hsmem
      · exact absurd hsneg ha
      · exact hmin s hsmem hsneg

/-- A scan returning `none` means no row is flagged. -/
lemma failure_month_eq_none {l : List Row} (h : failure_month l = none) :
    ∀ row ∈ l, row.Went_Negative = false := by
  intro row hrow
  unfold failure_month at h
  rcases hf : l.filter (fun r => r.Went_Negative) with _ | ⟨a, t⟩
  · have := List.filter_eq_nil_iff.mp hf row hrow
    simpa using this
  · rw [hf] at h
    simp at h

/-- A flagged head makes the scan stop at the head's month. -/
lemma failure_month_cons_pos {r : Row} {t : List Row}
    (h : r.Went_Negative = true) :
    failure_month (r :: t) = some r.Month := by
  unfold failure_month
  rw [List.filter_cons_of_pos h]

/-- Months are monotone along the produced sequence. -/
lemma simulate_month_mono (p : Params) :
    (simulate_retirement p).Pairwise fun a b => a.Month ≤ b.Month := by
  rw [simulate_eq, List.pairwise_map]
  refine List.Pairwise.imp ?_ (List.pairwise_lt_range _)
  intro i j hij
  show i + 1 ≤ j + 1
  omega

/-- With a positive horizon the produced sequence starts with month 1's
row, built from the opening balance. -/
lemma simulate_cons (p : Params) (h : 1 ≤ total_months p) :
    ∃ t, simulate_retirement p = mkRow p p.opening_balance 1 :: t := by
  obtain ⟨n, hn⟩ : ∃ n, total_months p = n + 1 := ⟨total_months p - 1, by omega⟩
  refine ⟨simFrom p n 2 (postFloor p p.opening_balance 1), ?_⟩
  unfold simulate_retirement
  rw [hn]
  rfl

/-- With no inflows and only nonnegative withdrawals, a zero opening
balance stays zero forever (valid rates keep `1 + inf_m` nonnegative). -/
lemma depleted_balAt (p : Params) (h0 : p.opening_balance = 0)
    (hc : p.monthly_contribution = 0) (hinc : p.monthly_income = 0)
    (hotc : p.one_time_contribution = 0) (hotw : p.one_time_withdrawal = 0)
    (hwpre : 0 ≤ p.monthly_withdraw_pre) (hwpost : 0 ≤ p.monthly_withdraw_post)
    (hinf : -1 ≤ p.inf_m) : ∀ m, balAt p m = 0 := by
  intro m
  induction m with
  | zero => exact h0
  | succ m ih =>
    have hw : 0 ≤ withdraw p (m + 1) := by
      unfold withdraw
      by_cases h1 : months_pre p < m + 1 ∧ p.inflate_withdrawals_post = true
      · rw [if_pos h1]
        exact mul_nonneg hwpost (pow_nonneg (by linarith) _)
      · rw [if_neg h1]
        by_cases h2 : m + 1 ≤ months_pre p
        · rw [if_pos h2]
          exact hwpre
        · rw [if_neg h2]
          exact hwpost
    have hpre : preFloor p (balAt p m) (m + 1) = -(withdraw p (m + 1)) := by
      simp [preFloor, ih, income, hinc, contrib, hc, ot_contrib, hotc,
        ot_withdraw, hotw]
    rw [balAt_succ, postFloor, hpre]
    rcases eq_or_lt_of_le hw with heq | hlt
    · simp [← heq]
    · rw [if_pos (by linarith)]

/-- With zero monthly rate, no withdrawals and no one-time events, the
running balance is the opening balance plus the income and contributions
received so far (both land in accumulation months only). -/
lemma flows_balAt (p : Params) (hr : p.r_m = 0)
    (hpost : p.monthly_withdraw_post = 0) (hotc : p.one_time_contribution = 0)
    (hotw : p.one_time_withdrawal = 0) (hwpre : p.monthly_withdraw_pre = 0)
    (hopen : 0 ≤ p.opening_balance) (hinc : 0 ≤ p.monthly_income)
    (hcon : 0 ≤ p.monthly_contribution) :
    ∀ m, balAt p m
      = p.opening_balance
        + ((min m (months_pre p) : ℕ) : ℚ)
          * (p.monthly_income + p.monthly_contribution) := by
  intro m
  induction m with
  | zero => simp [balAt]
  | succ m ih =>
    have hw : withdraw p (m + 1) = 0 := by
      unfold withdraw
      simp [hwpre, hpost]
    have hpre : preFloor p (balAt p m) (m + 1)
        = balAt p m + (income p (m + 1) + contrib p (m + 1)) := by
      simp [preFloor, hr, hw, ot_contrib, hotc, ot_withdraw, hotw]
    have hbal : 0 ≤ balAt p m := by
      rw [ih]
      exact add_nonneg hopen
        (mul_nonneg (Nat.cast_nonneg _) (add_nonneg hinc hcon))
    have hflow : 0 ≤ income p (m + 1) + contrib p (m + 1) := by
      unfold income contrib
      by_cases h2 : m + 1 ≤ months_pre p
      · rw [if_pos h2, if_pos h2]
        exact add_nonneg hinc hcon
      · rw [if_neg h2, if_neg h2]
        norm_num
    have hnn : 0 ≤ preFloor p (balAt p m) (m + 1) := by
      rw [hpre]
      exact add_nonneg hbal hflow
    rw [balAt_succ, postFloor, if_neg (not_lt.mpr hnn), hpre, ih]
    unfold income contrib
    by_cases hle : m + 1 ≤ months_pre p
    · have h1 : min m (months_pre p) = m := by omega
      have h2 : min (m + 1) (months_pre p) = m + 1 := by omega
      rw [if_pos hle, if_pos hle, h1, h2]
      push_cast
      ring
    · have h1 : min m (months_pre p) = min (m + 1) (months_pre p) := by omega
      rw [if_neg hle, if_neg hle, h1]
      ring

/-- With a positive horizon the last row's nominal balance is the running
balance after the final month. -/
lemma end_nominal_simulate (p : Params) (htot : 1 ≤ total_months p) :
    end_nominal (simulate_retirement p) = some (balAt p (total_months p)) := by
  obtain ⟨n, hn⟩ : ∃ n, total_months p = n + 1 := ⟨total_months p - 1, by omega⟩
  have hlast : (simulate_retirement p).getLast?
      = some (mkRow p (balAt p n) (n + 1)) := by
    rw [List.getLast?_eq_getElem?, simulate_length, hn]
    simpa using simulate_getElem? p n (by omega)
  unfold end_nominal
  rw [hlast, Option.map_some', hn]
  rfl

/-- C1: for every period m in 1..total_periods, the pre-clamp balance for
period m equals (previous period's reported balance, or opening_balance
for m = 1) times (1 + effective per-period rate), plus the period's
inflows (income + contribution + one-time contribution), minus its
outflows (withdrawal + one-time withdrawal): growth then cashflow. -/
theorem growth_then_cashflow (p : Params) (m : ℕ) (h1 : 1 ≤ m)
    (h2 : m ≤ total_months p) :
    ∃ row, (simulate_retirement p)[m - 1]? = some row ∧
      preFloor p row.Balance_Before m
        = row.Balance_Before * (1 + p.r_m)
          + (row.Income + row.Contribution + row.OneTime_Contribution)
          - (row.Withdrawal + row.OneTime_Withdrawal) ∧
      row.Balance_Nominal
        = (if preFloor p row.Balance_Before m < 0 then 0
           else preFloor p row.Balance_Before m) ∧
      (m = 1 → row.Balance_Before = p.opening_balance) ∧
      (∀ prev, 2 ≤ m → (simulate_retirement p)[m - 2]? = some prev →
        row.Balance_Before = prev.Balance_Nominal) := by
  obtain ⟨i, rfl⟩ : ∃ i, m = i + 1 := ⟨m - 1, by omega⟩
  have hi : i < total_months p := by omega
  refine ⟨mkRow p (balAt p i) (i + 1), ?_, rfl, rfl, ?_, ?_⟩
  · simpa using simulate_getElem? p i hi
  · intro hm
    obtain rfl : i = 0 := by omega
    rfl
  · intro prev h2m hprev
    obtain ⟨j, rfl⟩ : ∃ j, i = j + 1 := ⟨i - 1, by omega⟩
    obtain ⟨hj, rfl⟩ := simulate_row p hprev
    rfl

/-- Witness for `growth_then_cashflow` at month 2 of the sample run. -/
theorem growth_then_cashflow_witness :
    1 ≤ 2 ∧ 2 ≤ total_months exampleParams ∧
      (∃ row, (simulate_retirement exampleParams)[2 - 1]? = some row ∧
        preFloor exampleParams row.Balance_Before 2
          = row.Balance_Before * (1 + exampleParams.r_m)
            + (row.Income + row.Contribution + row.OneTime_Contribution)
            - (row.Withdrawal + row.OneTime_Withdrawal) ∧
        row.Balance_Nominal
          = (if preFloor exampleParams row.Balance_Before 2 < 0 then 0
             else preFloor exampleParams row.Balance_Before 2) ∧
        ((2 : ℕ) = 1 → row.Balance_Before = exampleParams.opening_balance) ∧
        (∀ prev, 2 ≤ 2 →
          (simulate_retirement exampleParams)[2 - 2]? = some prev →
          row.Balance_Before = prev.Balance_Nominal)) :=
  ⟨by decide, by decide,
    growth_then_cashflow exampleParams 2 (by decide) (by decide)⟩

/-- C2: the reported balance is never negative; the went-negative flag is
set exactly when the pre-floor balance is negative, in which case the
reported balance is 0, otherwise it is the pre-floor balance; the clamped
balance feeds the next period, and the full horizon is always produced. -/
theorem balance_floor (p : Params) (i : ℕ) (row : Row)
    (h : (simulate_retirement p)[i]? = some row) :
    0 ≤ row.Balance_Nominal ∧
      (row.Went_Negative = true ↔ preFloor p row.Balance_Before (i + 1) < 0) ∧
      (preFloor p row.Balance_Before (i + 1) < 0 → row.Balance_Nominal = 0) ∧
      (¬ preFloor p row.Balance_Before (i + 1) < 0 →
        row.Balance_Nominal = preFloor p row.Balance_Before (i + 1)) ∧
      (∀ next, (simulate_retirement p)[i + 1]? = some next →
        next.Balance_Before = row.Balance_Nominal) ∧
      (simulate_retirement p).length = total_months p := by
  obtain ⟨hi, rfl⟩ := simulate_row p h
  refine ⟨?_, ?_, ?_, ?_, ?_, simulate_length p⟩
  · show 0 ≤ postFloor p (balAt p i) (i + 1)
    unfold postFloor
    by_cases hneg : preFloor p (balAt p i) (i + 1) < 0
    · rw [if_pos hneg]
    · rw [if_neg hneg]
      exact le_of_not_lt hneg
  · show decide (preFloor p (balAt p i) (i + 1) < 0) = true ↔ _
    exact decide_eq_true_iff
  · intro hneg
    have hneg' : preFloor p (balAt p i) (i + 1) < 0 := hneg
    show postFloor p (balAt p i) (i + 1) = 0
    unfold postFloor
    rw [if_pos hneg']
  · intro hneg
    have hneg' : ¬ preFloor p (balAt p i) (i + 1) < 0 := hneg
    show postFloor p (balAt p i) (i + 1) = preFloor p (balAt p i) (i + 1)
    unfold postFloor
    rw [if_neg hneg']
  · intro next hnext
    obtain ⟨hni, rfl⟩ := simulate_row p hnext
    rfl

/-- Witness for `balance_floor` at month 1 of the sample run. -/
theorem balance_floor_witness :
    (simulate_retirement exampleParams)[0]? = some exampleRow ∧
      (0 ≤ exampleRow.Balance_Nominal ∧
        (exampleRow.Went_Negative = true ↔
          preFloor exampleParams exampleRow.Balance_Before (0 + 1) < 0) ∧
        (preFloor exampleParams exampleRow.Balance_Before (0 + 1) < 0 →
          exampleRow.Balance_Nominal = 0) ∧
        (¬ preFloor exampleParams exampleRow.Balance_Before (0 + 1) < 0 →
          exampleRow.Balance_Nominal
            = preFloor exampleParams exampleRow.Balance_Before (0 + 1)) ∧
        (∀ next, (simulate_retirement exampleParams)[0 + 1]? = some next →
          next.Balance_Before = exampleRow.Balance_Nominal) ∧
        (simulate_retirement exampleParams).length
          = total_months exampleParams) :=
  ⟨rfl, balance_floor exampleParams 0 exampleRow rfl⟩

/-- C3: per-period cashflows — income and contribution are the configured
values in accumulation and 0 in distribution; withdrawal is the pre value
in accumulation and the post value in distribution, scaled by
`(1+inf_m)^(k-1)` when the indexing flag is set (k = periods into
distribution, the first distribution period unscaled); one-time events
fire exactly at their target period. -/
theorem cashflow_rules (p : Params) (i : ℕ) (row : Row)
    (h : (simulate_retirement p)[i]? = some row) :
    row.Income = (if i + 1 ≤ months_pre p then p.monthly_income else 0) ∧
      row.Contribution
        = (if i + 1 ≤ months_pre p then p.monthly_contribution else 0) ∧
      (i + 1 ≤ months_pre p → row.Withdrawal = p.monthly_withdraw_pre) ∧
      (months_pre p < i + 1 → p.inflate_withdrawals_post = false →
        row.Withdrawal = p.monthly_withdraw_post) ∧
      (months_pre p < i + 1 → p.inflate_withdrawals_post = true →
        row.Withdrawal
          = p.monthly_withdraw_post
            * (1 + p.inf_m) ^ (i + 1 - months_pre p - 1)) ∧
      (i + 1 = months_pre p + 1 → p.inflate_withdrawals_post = true →
        row.Withdrawal = p.monthly_withdraw_post) ∧
      row.OneTime_Contribution
        = (if i + 1 = p.one_time_contribution_month
           then p.one_time_contribution else 0) ∧
      row.OneTime_Withdrawal
        = (if i + 1 = p.one_time_withdrawal_month
           then p.one_time_withdrawal else 0) := by
  obtain ⟨hi, rfl⟩ := simulate_row p h
  refine ⟨rfl, rfl, ?_, ?_, ?_, ?_, rfl, rfl⟩
  · intro hle
    show withdraw p (i + 1) = p.monthly_withdraw_pre
    unfold withdraw
    rw [if_neg (fun hc => absurd hc.1 (by omega)), if_pos hle]
  · intro hlt hflag
    have hcond : ¬ (months_pre p < i + 1 ∧ p.inflate_withdrawals_post = true) := by
      simp [hflag]
    show withdraw p (i + 1) = p.monthly_withdraw_post
    unfold withdraw
    rw [if_neg hcond, if_neg (by omega : ¬ i + 1 ≤ months_pre p)]
  · intro hlt hflag
    show withdraw p (i + 1)
        = p.monthly_withdraw_post * (1 + p.inf_m) ^ (i + 1 - months_pre p - 1)
    unfold withdraw
    rw [if_pos ⟨hlt, hflag⟩]
  · intro heq hflag
    have hlt : months_pre p < i + 1 := by omega
    have he0 : i + 1 - months_pre p - 1 = 0 := by omega
    show withdraw p (i + 1) = p.monthly_withdraw_post
    unfold withdraw
    rw [if_pos ⟨hlt, hflag⟩, he0, pow_zero, mul_one]

/-- Witness for `cashflow_rules` at month 1 of the sample run. -/
theorem cashflow_rules_witness :
    (simulate_retirement exampleParams)[0]? = some exampleRow ∧
      (exampleRow.Income
          = (if 0 + 1 ≤ months_pre exampleParams
             then exampleParams.monthly_income else 0) ∧
        exampleRow.Contribution
          = (if 0 + 1 ≤ months_pre exampleParams
             then exampleParams.monthly_contribution else 0) ∧
        (0 + 1 ≤ months_pre exampleParams →
          exampleRow.Withdrawal = exampleParams.monthly_withdraw_pre) ∧
        (months_pre exampleParams < 0 + 1 →
          exampleParams.inflate_withdrawals_post = false →
          exampleRow.Withdrawal = exampleParams.monthly_withdraw_post) ∧
        (months_pre exampleParams < 0 + 1 →
          exampleParams.inflate_withdrawals_post = true →
          exampleRow.Withdrawal
            = exampleParams.monthly_withdraw_post
              * (1 + exampleParams.inf_m)
                ^ (0 + 1 - months_pre exampleParams - 1)) ∧
        (0 + 1 = months_pre exampleParams + 1 →
          exampleParams.inflate_withdrawals_post = true →
          exampleRow.Withdrawal = exampleParams.monthly_withdraw_post) ∧
        exampleRow.OneTime_Contribution
          = (if 0 + 1 = exampleParams.one_time_contribution_month
             then exampleParams.one_time_contribution else 0) ∧
        exampleRow.OneTime_Withdrawal
          = (if 0 + 1 = exampleParams.one_time_withdrawal_month
             then exampleParams.one_time_withdrawal else 0)) :=
  ⟨rfl, cashflow_rules exampleParams 0 exampleRow rfl⟩

/-- C4: the sequence has exactly `total_periods` records, the record at
position i carries period index i+1 (1-based, gap-free, strictly
increasing), and a period is in accumulation exactly when its index is at
most `accumulation_periods`; `accumulation_periods = 0` is handled with
every period in distribution. -/
theorem sequence_indexing (p : Params) (i : ℕ) (row : Row)
    (h : (simulate_retirement p)[i]? = some row) :
    (simulate_retirement p).length = months_pre p + months_post p ∧
      row.Month = i + 1 ∧
      (row.Phase = "Pre-retirement" ↔ i + 1 ≤ months_pre p) ∧
      (¬ i + 1 ≤ months_pre p → row.Phase = "Retirement") ∧
      (months_pre p = 0 → row.Phase = "Retirement") := by
  obtain ⟨hi, rfl⟩ := simulate_row p h
  refine ⟨simulate_length p, rfl, ?_, ?_, ?_⟩
  · show (if i + 1 ≤ months_pre p then "Pre-retirement" else "Retirement")
        = "Pre-retirement" ↔ i + 1 ≤ months_pre p
    by_cases hle : i + 1 ≤ months_pre p
    · rw [if_pos hle]
      simp [hle]
    · rw [if_neg hle]
      constructor
      · intro hstr
        exact absurd hstr (by decide)
      · intro hc
        exact absurd hc hle
  · intro hle
    show (if i + 1 ≤ months_pre p then "Pre-retirement" else "Retirement")
        = "Retirement"
    rw [if_neg hle]
  · intro h0
    show (if i + 1 ≤ months_pre p then "Pre-retirement" else "Retirement")
        = "Retirement"
    rw [if_neg (by omega)]

/-- Witness for `sequence_indexing` at month 1 of the sample run. -/
theorem sequence_indexing_witness :
    (simulate_retirement exampleParams)[0]? = some exampleRow ∧
      ((simulate_retirement exampleParams).length
          = months_pre exampleParams + months_post exampleParams ∧
        exampleRow.Month = 0 + 1 ∧
        (exampleRow.Phase = "Pre-retirement" ↔
          0 + 1 ≤ months_pre exampleParams) ∧
        (¬ 0 + 1 ≤ months_pre exampleParams →
          exampleRow.Phase = "Retirement") ∧
        (months_pre exampleParams = 0 → exampleRow.Phase = "Retirement")) :=
  ⟨rfl, sequence_indexing exampleParams 0 exampleRow rfl⟩

/-- C5: the recorded real balance is the recorded nominal balance divided
by the cumulative inflation index `idx(m) = (1+inf_m)^(m-1)`; the index
is 1 at period 1, so real equals nominal there. -/
theorem real_balance_index (p : Params) (i : ℕ) (row : Row)
    (h : (simulate_retirement p)[i]? = some row) :
    row.Balance_Real_Today = row.Balance_Nominal / infl_index p (i + 1) ∧
      infl_index p (i + 1) = (1 + p.inf_m) ^ i ∧
      infl_index p 1 = 1 ∧
      (i = 0 → row.Balance_Real_Today = row.Balance_Nominal) := by
  obtain ⟨hi, rfl⟩ := simulate_row p h
  refine ⟨rfl, rfl, pow_zero _, ?_⟩
  intro h0
  obtain rfl : i = 0 := h0
  show postFloor p (balAt p 0) 1 / infl_index p 1 = postFloor p (balAt p 0) 1
  rw [show infl_index p 1 = 1 from pow_zero _, div_one]

/-- Witness for `real_balance_index` at month 1 of the sample run. -/
theorem real_balance_index_witness :
    (simulate_retirement exampleParams)[0]? = some exampleRow ∧
      (exampleRow.Balance_Real_Today
          = exampleRow.Balance_Nominal / infl_index exampleParams (0 + 1) ∧
        infl_index exampleParams (0 + 1) = (1 + exampleParams.inf_m) ^ 0 ∧
        infl_index exampleParams 1 = 1 ∧
        ((0 : ℕ) = 0 →
          exampleRow.Balance_Real_Today = exampleRow.Balance_Nominal)) :=
  ⟨rfl, real_balance_index exampleParams 0 exampleRow rfl⟩

/-- C6: the depletion period reported from a completed sequence is the
smallest period index whose went-negative flag is true, or none when no
period is flagged; and in the depletion scenario (zero opening balance,
zero contribution, pre-phase withdrawal 100, at least one accumulation
period, no income, no one-time events, valid nonnegative post withdrawal
and per-period inflation above -100%) the depletion period is 1 and every
reported balance is 0. -/
theorem depletion_scan (p q : Params)
    (hq0 : q.opening_balance = 0) (hqc : q.monthly_contribution = 0)
    (hqw : q.monthly_withdraw_pre = 100) (hqpre : 1 ≤ months_pre q)
    (hqinc : q.monthly_income = 0) (hqotc : q.one_time_contribution = 0)
    (hqotw : q.one_time_withdrawal = 0) (hqpost : 0 ≤ q.monthly_withdraw_post)
    (hqinf : -1 ≤ q.inf_m) :
    (∀ k, failure_month (simulate_retirement p) = some k →
      (∃ row ∈ simulate_retirement p,
        row.Month = k ∧ row.Went_Negative = true) ∧
      ∀ row ∈ simulate_retirement p, row.Went_Negative = true →
        k ≤ row.Month) ∧
    (failure_month (simulate_retirement p) = none →
      ∀ row ∈ simulate_retirement p, row.Went_Negative = false) ∧
    failure_month (simulate_retirement q) = some 1 ∧
    (∀ row ∈ simulate_retirement q, row.Balance_Nominal = 0) := by
  refine ⟨?_, failure_month_eq_none, ?_, ?_⟩
  · intro k hk
    exact failure_month_eq_some (simulate_month_mono p) hk
  · have htot : 1 ≤ total_months q := by
      unfold total_months
      omega
    obtain ⟨t, ht⟩ := simulate_cons q htot
    rw [ht]
    have hw1 : withdraw q 1 = 100 := by
      unfold withdraw
      rw [if_neg (fun hc => absurd hc.1 (by omega)), if_pos hqpre, hqw]
    have hpre1 : preFloor q q.opening_balance 1 = -100 := by
      simp [preFloor, hq0, income, hqinc, contrib, hqc, ot_contrib, hqotc,
        ot_withdraw, hqotw, hw1]
    have hflag : (mkRow q q.opening_balance 1).Went_Negative = true := by
      show decide (preFloor q q.opening_balance 1 < 0) = true
      rw [decide_eq_true_iff, hpre1]
      norm_num
    rw [failure_month_cons_pos hflag]
    rfl
  · intro row hrow
    obtain ⟨i, hi, rfl⟩ := mem_simulate q hrow
    show postFloor q (balAt q i) (i + 1) = 0
    rw [← balAt_succ]
    exact depleted_balAt q hq0 hqc hqinc hqotc hqotw
      (by rw [hqw]; norm_num) hqpost hqinf (i + 1)

/-- Witness for `depletion_scan` at the sample depletion scenario. -/
theorem depletion_scan_witness :
    depletionParams.opening_balance = 0 ∧
      depletionParams.monthly_contribution = 0 ∧
      depletionParams.monthly_withdraw_pre = 100 ∧
      1 ≤ months_pre depletionParams ∧
      depletionParams.monthly_income = 0 ∧
      depletionParams.one_time_contribution = 0 ∧
      depletionParams.one_time_withdrawal = 0 ∧
      0 ≤ depletionParams.monthly_withdraw_post ∧
      -1 ≤ depletionParams.inf_m ∧
      ((∀ k, failure_month (simulate_retirement depletionParams) = some k →
        (∃ row ∈ simulate_retirement depletionParams,
          row.Month = k ∧ row.Went_Negative = true) ∧
        ∀ row ∈ simulate_retirement depletionParams,
          row.Went_Negative = true → k ≤ row.Month) ∧
      (failure_month (simulate_retirement depletionParams) = none →
        ∀ row ∈ simulate_retirement depletionParams,
          row.Went_Negative = false) ∧
      failure_month (simulate_retirement depletionParams) = some 1 ∧
      (∀ row ∈ simulate_retirement depletionParams,
        row.Balance_Nominal = 0)) :=
  ⟨rfl, rfl, rfl, by decide, rfl, rfl, rfl, by decide, by decide,
    depletion_scan depletionParams depletionParams rfl rfl rfl (by decide)
      rfl rfl rfl (by decide) (by decide)⟩

/-- C7 (amended): with zero monthly rates, zero post-phase withdrawal, no
one-time events, and additionally zero periodic income and zero pre-phase
withdrawal (both feed the balance, so the claim fails without this), the
final nominal balance is opening_balance plus accumulation_periods times
the periodic contribution. -/
theorem contribution_only_final (p : Params) (hr : p.r_m = 0)
    (hinf : p.inf_m = 0) (hpost : p.monthly_withdraw_post = 0)
    (hotc : p.one_time_contribution = 0) (hotw : p.one_time_withdrawal = 0)
    (hinc : p.monthly_income = 0) (hwpre : p.monthly_withdraw_pre = 0)
    (hopen : 0 ≤ p.opening_balance) (hcon : 0 ≤ p.monthly_contribution)
    (htot : 1 ≤ total_months p) :
    end_nominal (simulate_retirement p)
      = some (p.opening_balance
        + ((months_pre p : ℕ) : ℚ) * p.monthly_contribution) := by
  rw [end_nominal_simulate p htot,
    flows_balAt p hr hpost hotc hotw hwpre hopen (le_of_eq hinc.symm) hcon
      (total_months p), hinc]
  have hple : months_pre p ≤ total_months p := by
    unfold total_months
    omega
  have hmin : min (total_months p) (months_pre p) = months_pre p := by omega
  rw [hmin, zero_add]

/-- Witness for `contribution_only_final` on the contribution-only sample. -/
theorem contribution_only_final_witness :
    contributionOnlyParams.r_m = 0 ∧
      contributionOnlyParams.inf_m = 0 ∧
      contributionOnlyParams.monthly_withdraw_post = 0 ∧
      contributionOnlyParams.one_time_contribution = 0 ∧
      contributionOnlyParams.one_time_withdrawal = 0 ∧
      contributionOnlyParams.monthly_income = 0 ∧
      contributionOnlyParams.monthly_withdraw_pre = 0 ∧
      0 ≤ contributionOnlyParams.opening_balance ∧
      0 ≤ contributionOnlyParams.monthly_contribution ∧
      1 ≤ total_months contributionOnlyParams ∧
      end_nominal (simulate_retirement contributionOnlyParams)
        = some (contributionOnlyParams.opening_balance
          + ((months_pre contributionOnlyParams : ℕ) : ℚ)
            * contributionOnlyParams.monthly_contribution) :=
  ⟨rfl, rfl, rfl, rfl, rfl, rfl, rfl, by decide, by decide, by decide,
    contribution_only_final contributionOnlyParams rfl rfl rfl rfl rfl rfl
      rfl (by decide) (by decide) (by decide)⟩

/-- C7 as stated is false on the code: with zero rates, zero post-phase
withdrawal and no one-time events but a positive periodic income (a valid
input the claim does not exclude), the final nominal balance 1200 differs
from opening_balance + accumulation_periods * contribution = 0. -/
theorem zero_rate_claim_counterexample :
    incomeOnlyParams.r_m = 0 ∧ incomeOnlyParams.inf_m = 0 ∧
      incomeOnlyParams.monthly_withdraw_post = 0 ∧
      incomeOnlyParams.one_time_contribution = 0 ∧
      incomeOnlyParams.one_time_withdrawal = 0 ∧
      0 ≤ incomeOnlyParams.opening_balance ∧
      end_nominal (simulate_retirement incomeOnlyParams) = some 1200 ∧
      incomeOnlyParams.opening_balance
          + ((months_pre incomeOnlyParams : ℕ) : ℚ)
            * incomeOnlyParams.monthly_contribution = 0 ∧
      (1200 : ℚ) ≠ 0 := by
  refine ⟨rfl, rfl, rfl, rfl, rfl, by norm_num [incomeOnlyParams], ?_,
    by norm_num [incomeOnlyParams, months_pre], by norm_num⟩
  rw [end_nominal_simulate incomeOnlyParams (by decide),
    flows_balAt incomeOnlyParams rfl rfl rfl rfl rfl (le_refl 0)
      (by norm_num [incomeOnlyParams]) (le_refl 0) (total_months incomeOnlyParams)]
  norm_num [incomeOnlyParams, months_pre, months_post, total_months]

/-- C8 (amended): the engine performs no input validation — for every
parameter record, including ones with negative amounts where the spec
disallows them or a one-time target period outside [1, total_periods], a
full sequence of total_periods records is produced and no error path
exists; the sequence is empty only when the horizon itself is zero. -/
theorem no_validation (p : Params) :
    (simulate_retirement p).length = total_months p ∧
      (simulate_retirement p = [] ↔ total_months p = 0) := by
  refine ⟨simulate_length p, ?_⟩
  rw [← List.length_eq_zero, simulate_length]

/-- C8 as stated is false on the code: `invalidParams` has a negative
opening balance and a one-time target period beyond the horizon, yet the
engine still produces the full 12-record sequence instead of raising. -/
theorem no_validation_counterexample :
    invalidParams.opening_balance < 0 ∧
      total_months invalidParams <
        invalidParams.one_time_contribution_month ∧
      (simulate_retirement invalidParams).length
        = total_months invalidParams ∧
      total_months invalidParams ≠ 0 :=
  ⟨by decide, by decide, by decide, by decide⟩

/-- C9 (amended): each record carries the period's starting balance (the
previous period's reported balance, the opening balance for period 1) in
`Balance_Before`, and the post-floor reported balance in
`Balance_Nominal`; the post-netting pre-floor balance itself is not a
stored field. -/
theorem record_balance_fields (p : Params) (i : ℕ) (row : Row)
    (h : (simulate_retirement p)[i]? = some row) :
    row.Balance_Before = balAt p i ∧
      row.Balance_Nominal = postFloor p (balAt p i) (i + 1) ∧
      (i = 0 → row.Balance_Before = p.opening_balance) := by
  obtain ⟨hi, rfl⟩ := simulate_row p h
  refine ⟨rfl, rfl, ?_⟩
  intro h0
  obtain rfl : i = 0 := h0
  rfl

/-- Witness for `record_balance_fields` at month 1 of the sample run. -/
theorem record_balance_fields_witness :
    (simulate_retirement exampleParams)[0]? = some exampleRow ∧
      (exampleRow.Balance_Before = balAt exampleParams 0 ∧
        exampleRow.Balance_Nominal
          = postFloor exampleParams (balAt exampleParams 0) (0 + 1) ∧
        ((0 : ℕ) = 0 →
          exampleRow.Balance_Before = exampleParams.opening_balance)) :=
  ⟨rfl, record_balance_fields exampleParams 0 exampleRow rfl⟩

/-- C9 as stated is false on the code: for `overdrawParams` the month-1
pre-floor balance is -50, but no rational-valued field of the produced
record equals -50 — the record stores the pre-growth starting balance
(50), not the pre-floor balance. -/
theorem pre_floor_not_recorded_counterexample :
    (simulate_retirement overdrawParams)[0]? = some overdrawRow ∧
      preFloor overdrawParams overdrawRow.Balance_Before 1 = -50 ∧
      overdrawRow.Balance_Nominal ≠ -50 ∧
      overdrawRow.Balance_Real_Today ≠ -50 ∧
      overdrawRow.Return_Monthly ≠ -50 ∧
      overdrawRow.Inflation_Monthly ≠ -50 ∧
      overdrawRow.Income ≠ -50 ∧
      overdrawRow.Contribution ≠ -50 ∧
      overdrawRow.Withdrawal ≠ -50 ∧
      overdrawRow.OneTime_Contribution ≠ -50 ∧
      overdrawRow.OneTime_Withdrawal ≠ -50 ∧
      overdrawRow.Net_Cashflow ≠ -50 ∧
      overdrawRow.Balance_Before ≠ -50 := by
  refine ⟨rfl, ?_, ?_, ?_, ?_, ?_, ?_, ?_, ?_, ?_, ?_, ?_, ?_⟩ <;>
    norm_num [overdrawRow, overdrawParams, mkRow, postFloor, preFloor,
      income, contrib, withdraw, ot_contrib, ot_withdraw, infl_index,
      months_pre]

/-- C10: the effective monthly growth rate is
`(1 + (yield - fee))^(1/12) - 1` — the fee is netted from the annual
yield before the annual-to-monthly conversion, not applied as a separate
per-period drag — the monthly inflation rate is
`(1 + inflation)^(1/12) - 1` by the same conversion, and both rates are
recorded unchanged on every row of a run. -/
theorem rate_conversion (y f infl : ℝ) (p : Params) (i : ℕ) (row : Row)
    (h : (simulate_retirement p)[i]? = some row) :
    r_m_of y f = (1 + (y - f)) ^ ((1 : ℝ) / 12) - 1 ∧
      inf_m_of infl = (1 + infl) ^ ((1 : ℝ) / 12) - 1 ∧
      row.Return_Monthly = p.r_m ∧
      row.Inflation_Monthly = p.inf_m := by
  obtain ⟨hi, rfl⟩ := simulate_row p h
  exact ⟨rfl, rfl, rfl, rfl⟩

/-- Witness for `rate_conversion` at month 1 of the sample run. -/
theorem rate_conversion_witness :
    (simulate_retirement exampleParams)[0]? = some exampleRow ∧
      (r_m_of 2 1 = (1 + (2 - 1)) ^ ((1 : ℝ) / 12) - 1 ∧
        inf_m_of 3 = (1 + 3) ^ ((1 : ℝ) / 12) - 1 ∧
        exampleRow.Return_Monthly = exampleParams.r_m ∧
        exampleRow.Inflation_Monthly = exampleParams.inf_m) :=
  ⟨rfl, rate_conversion 2 1 3 exampleParams 0 exampleRow rfl⟩

end Retirement
